import Mathlib

/-!
Verification of the pod-replacement reconciler (`pkg/devspace/services/podreplace/replace.go`).

The Go code is embedded shallowly: every external effect (Kubernetes API call,
remote-cache save, warning log) is recorded in an explicit trace, and the
response to each API call is supplied by an oracle indexed by a step counter,
so that a single oracle models one consistent (possibly time-varying) cluster.
Functions of the source file translate to state-passing Lean functions of the
same name; the collaborating modules that live outside the provided sources
(target resolver, replacement builder, config hasher, quantity parser) are
abstract deterministic functions bundled in an `Env`, as the spec describes
them.
-/

namespace PodReplace

/-- Annotation keys, from the constant block of replace.go. -/
def TargetKindAnn : String := "devspace.sh/parent-kind"

/-- Annotation key `devspace.sh/parent-name`. -/
def TargetNameAnn : String := "devspace.sh/parent-name"

/-- Annotation key `devspace.sh/config-hash`. -/
def DevPodConfigHashAnn : String := "devspace.sh/config-hash"

/-- Annotation key `devspace.sh/replicas` stored on the scaled-down target. -/
def ReplicasAnn : String := "devspace.sh/replicas"

/-- A Go `map[string]string`, as an association list; `none` models a nil map. -/
abbrev Anns := List (String × String)

/-- Read of a Go string map: a missing key (or a nil map) yields `""`. -/
def lookAnn (anns : Option Anns) (k : String) : String :=
  match anns with
  | none => ""
  | some l =>
    match l.find? (fun p => p.1 == k) with
    | some p => p.2
    | none => ""

/-- Write of a Go string map entry. -/
def setAnn (l : Anns) (k v : String) : Anns :=
  (k, v) :: l.filter (fun p => p.1 != k)

/-- A nil Go map behaves as the empty map once initialized. -/
def annsOrEmpty : Option Anns → Anns
  | none => []
  | some l => l

/-- Go error values as far as this file distinguishes them: the k8s
status-error kinds checked by `kerrors.IsNotFound` / `kerrors.IsAlreadyExists`,
the `wait.Poll` timeout, `errors.Wrap` contexts, plain message errors, and a
marker for exhausted recursion fuel in the embedding. -/
inductive GoErr where
  | notFound
  | alreadyExists
  | waitTimeout
  | outOfFuel
  | other (msg : String)
  | wrap (msg : String) (cause : GoErr)
deriving Repr, DecidableEq

/-- `kerrors.IsNotFound` on a raw client error. -/
def isNotFound : GoErr → Bool
  | GoErr.notFound => true
  | _ => false

/-- `kerrors.IsAlreadyExists` on a raw client error. -/
def isAlreadyExists : GoErr → Bool
  | GoErr.alreadyExists => true
  | _ => false

/-- The workload kinds the type switch in `scaleDownTarget` recognizes; `other`
models any further `runtime.Object`. -/
inductive TKind where
  | replicaSet
  | deployment
  | statefulSet
  | other (k : String)
deriving Repr, DecidableEq

/-- `GetObjectKind().GroupVersionKind().Kind` of a target object. -/
def TKind.kindString : TKind → String
  | TKind.replicaSet => "ReplicaSet"
  | TKind.deployment => "Deployment"
  | TKind.statefulSet => "StatefulSet"
  | TKind.other k => k

/-- An `appsv1.ReplicaSet` restricted to the fields replace.go reads or
writes; the pod template is opaque (compared with semantic deep-equality,
modelled as equality on the opaque value). -/
structure ReplicaSet where
  name : String
  nspace : String
  uid : String
  anns : Option Anns
  template : String
  replicas : Option Int
deriving Repr, DecidableEq

/-- A target workload (deployment, statefulset or replica set) restricted to
the fields replace.go touches. -/
structure Target where
  kind : TKind
  name : String
  nspace : String
  anns : Option Anns
  replicas : Option Int
  template : String
deriving Repr, DecidableEq

/-- A `metav1.OwnerReference`. -/
structure OwnerReference where
  apiVersion : String
  kind : String
  name : String
  uid : String
  controller : Option Bool
deriving Repr, DecidableEq

/-- A `corev1.PersistentVolumeClaim` restricted to the fields `createPVC`
sets; quantities are kept as their canonical strings. -/
structure PVC where
  name : String
  nspace : String
  ownerReferences : List OwnerReference
  accessModes : List String
  storageRequest : String
  storageClassName : Option String
deriving Repr, DecidableEq

/-- `latest.PersistenceOptions`, the fields read by `createPVC`. -/
structure PersistenceOptions where
  size : String
  storageClassName : String
  accessModes : Option (List String)
  name : String
deriving Repr, DecidableEq

/-- Modelled from the spec: a dev-container descriptor carries a list of
persisted-path requests (`PersistPaths`); the rest of the descriptor is not
consumed by this core. -/
structure DevContainer where
  persistPaths : List String
deriving Repr, DecidableEq

/-- Modelled from the spec: the dev pod declaration — name, namespace
(defaulting handled in `ReplacePod`), dev-container descriptors and optional
persistence options. The label selector is consumed only by the abstract
target resolver and therefore not materialized. -/
structure DevPod where
  name : String
  nspace : String
  containers : List DevContainer
  persistenceOptions : Option PersistenceOptions
deriving Repr, DecidableEq

/-- Modelled from the spec: the persisted `remotecache.DevPodCache` record —
dev pod name, namespace, target kind, target name, replacement name (the
`ReplicaSet` field). The zero value has every field empty. -/
structure DevPodCache where
  name : String
  nspace : String
  targetKind : String
  targetName : String
  replicaSet : String
deriving Repr, DecidableEq

/-- The zero value of a `DevPodCache`. -/
def DevPodCache.zero : DevPodCache :=
  { name := "", nspace := "", targetKind := "", targetName := "", replicaSet := "" }

/-- Every externally visible effect of the reconciler, in issue order.
Mutating API requests carry their full payload so claims can inspect it. -/
inductive Action where
  | getRS (ns name : String)
  | deleteRS (ns name : String)
  | createRS (rs : ReplicaSet)
  | patchRS (ns name : String) (oldRS newRS : ReplicaSet)
  | patchTarget (kind : TKind) (ns name : String) (oldT newT : Target)
  | createPVC (pvc : PVC)
  | deletePVC (ns name : String)
  | getPVC (ns name : String)
  | cacheSave (store : List (String × DevPodCache))
  | logWarn (e : GoErr)
deriving Repr, DecidableEq

/-- Recognizer for replica-set creation requests. -/
def Action.isCreateRS : Action → Bool
  | Action.createRS _ => true
  | _ => false

/-- Recognizer for replica-set merge-patch requests. -/
def Action.isPatchRS : Action → Bool
  | Action.patchRS _ _ _ _ => true
  | _ => false

/-- Recognizer for replica-set deletion requests. -/
def Action.isDeleteRS : Action → Bool
  | Action.deleteRS _ _ => true
  | _ => false

/-- Recognizer for target scale merge-patch requests. -/
def Action.isPatchTarget : Action → Bool
  | Action.patchTarget _ _ _ _ _ => true
  | _ => false

/-- Recognizer for persistent-volume-claim creation requests. -/
def Action.isCreatePVC : Action → Bool
  | Action.createPVC _ => true
  | _ => false

/-- Recognizer for persistent-volume-claim deletion requests. -/
def Action.isDeletePVC : Action → Bool
  | Action.deletePVC _ _ => true
  | _ => false

/-- Recognizer for persistent-volume-claim reads (the termination poll). -/
def Action.isGetPVC : Action → Bool
  | Action.getPVC _ _ => true
  | _ => false

/-- Recognizer for remote-cache saves. -/
def Action.isCacheSave : Action → Bool
  | Action.cacheSave _ => true
  | _ => false

/-- Recognizer for logged warnings. -/
def Action.isLogWarn : Action → Bool
  | Action.logWarn _ => true
  | _ => false

/-- The cluster (and cache backend) as an oracle answering each API request;
the `Nat` argument is the global step counter, so responses may vary over
time, and a counter-independent oracle models a static cluster. -/
structure KubeOracle where
  getRS : Nat → String → String → Except GoErr ReplicaSet
  deleteRS : Nat → String → String → Option GoErr
  createRS : Nat → ReplicaSet → Except GoErr ReplicaSet
  patchRS : Nat → String → String → ReplicaSet → ReplicaSet → Option GoErr
  patchTarget : Nat → TKind → String → String → Target → Target → Option GoErr
  createPVC : Nat → PVC → Option GoErr
  deletePVC : Nat → String → String → Option GoErr
  getPVC : Nat → String → String → Option GoErr
  saveCache : Nat → Option GoErr

/-- Modelled from the spec: the collaborating modules outside the provided
sources. `findTargetBySelector` (target resolver by selector, §4.2),
`findTargetByKindName` (resolver by kind and name, returning a distinct
not-found signal, §4.2), `buildReplicaSet` (pure, deterministic replacement
builder, §4.3), `hashConfig` (deterministic config hasher, §4.1),
`parseQuantity` (quantity-string parser) and the client's active namespace. -/
structure Env where
  findTargetBySelector : DevPod → Except GoErr (Option Target)
  findTargetByKindName : String → String → String → Except GoErr Target
  buildReplicaSet : String → Target → DevPod → Except GoErr ReplicaSet
  hashConfig : DevPod → Except GoErr String
  parseQuantity : String → Except GoErr String
  defaultNamespace : String

/-- Execution state threaded through the reconciler: the step counter, the
effect trace so far, and the in-memory remote-cache store. -/
structure St where
  time : Nat
  trace : List Action
  cache : List (String × DevPodCache)
deriving Repr, DecidableEq

/-- Record an oracle-consuming step. -/
def bump (s : St) (a : Action) : St :=
  { s with time := s.time + 1, trace := s.trace ++ [a] }

/-- Record a log line (no oracle step). -/
def logA (s : St) (a : Action) : St :=
  { s with trace := s.trace ++ [a] }

/-- `RemoteCache().GetDevPod`: entry plus a found flag; absent yields the
zero value, as in Go. -/
def cacheGet (s : St) (name : String) : DevPodCache × Bool :=
  match s.cache.find? (fun p => p.1 == name) with
  | some p => (p.2, true)
  | none => (DevPodCache.zero, false)

/-- `RemoteCache().SetDevPod`. -/
def cacheSet (s : St) (name : String) (e : DevPodCache) : St :=
  { s with cache := (name, e) :: s.cache.filter (fun p => p.1 != name) }

/-- `RemoteCache().Save`: durably persists the store through the oracle. -/
def cacheSaveFn (o : KubeOracle) (s : St) : Option GoErr × St :=
  (o.saveCache s.time, bump s (Action.cacheSave s.cache))

/-- `ReplicaSets(ns).Get(name)`. -/
def apiGetRS (o : KubeOracle) (s : St) (ns name : String) : Except GoErr ReplicaSet × St :=
  (o.getRS s.time ns name, bump s (Action.getRS ns name))

/-- `ReplicaSets(ns).Delete(name)`. -/
def apiDeleteRS (o : KubeOracle) (s : St) (ns name : String) : Option GoErr × St :=
  (o.deleteRS s.time ns name, bump s (Action.deleteRS ns name))

/-- `ReplicaSets(rs.Namespace).Create(rs)`, returning the server object. -/
def apiCreateRS (o : KubeOracle) (s : St) (rs : ReplicaSet) : Except GoErr ReplicaSet × St :=
  (o.createRS s.time rs, bump s (Action.createRS rs))

/-- `ReplicaSets(ns).Patch(name, mergePatch(oldRS, newRS))`. -/
def apiPatchRS (o : KubeOracle) (s : St) (ns name : String) (oldRS newRS : ReplicaSet) :
    Option GoErr × St :=
  (o.patchRS s.time ns name oldRS newRS, bump s (Action.patchRS ns name oldRS newRS))

/-- The kind-specific `Patch` call issued by `scaleDownTarget`. -/
def apiPatchTarget (o : KubeOracle) (s : St) (kind : TKind) (ns name : String)
    (oldT newT : Target) : Option GoErr × St :=
  (o.patchTarget s.time kind ns name oldT newT, bump s (Action.patchTarget kind ns name oldT newT))

/-- `PersistentVolumeClaims(pvc.Namespace).Create(pvc)`. -/
def apiCreatePVC (o : KubeOracle) (s : St) (pvc : PVC) : Option GoErr × St :=
  (o.createPVC s.time pvc, bump s (Action.createPVC pvc))

/-- `PersistentVolumeClaims(ns).Delete(name)`. -/
def apiDeletePVC (o : KubeOracle) (s : St) (ns name : String) : Option GoErr × St :=
  (o.deletePVC s.time ns name, bump s (Action.deletePVC ns name))

/-- `PersistentVolumeClaims(ns).Get(name)` — only the error is consumed. -/
def apiGetPVC (o : KubeOracle) (s : St) (ns name : String) : Option GoErr × St :=
  (o.getPVC s.time ns name, bump s (Action.getPVC ns name))

/-- `time.Second`, in seconds. -/
def timeSecond : Nat := 1

/-- `time.Minute`, in seconds. -/
def timeMinute : Nat := 60

/-- The check loop of `wait.Poll`: one condition evaluation per tick, at most
`n` ticks before `ErrWaitTimeout`. -/
def waitPollAux (c : St → Bool × St) : Nat → St → Option GoErr × St
  | 0, s => (some GoErr.waitTimeout, s)
  | n + 1, s =>
    let (done, s) := c s
    if done then (none, s) else waitPollAux c n s

/-- `wait.Poll(interval, timeout, cond)`: ticks every `interval` until
`timeout`, so `timeout / interval` condition checks. -/
def waitPoll (interval timeout : Nat) (c : St → Bool × St) (s : St) : Option GoErr × St :=
  waitPollAux c (timeout / interval) s

/-- `scaleDownTarget` of replace.go: type switch over the three scalable
kinds; read replicas (default 1), no-op at 0, otherwise record the original
count in the `devspace.sh/replicas` annotation, set replicas to 0 and issue
one merge patch computed against the pre-mutation clone. -/
def scaleDownTarget (o : KubeOracle) (s : St) (obj : Target) : Option GoErr × St :=
  let cloned := obj
  match obj.kind with
  | TKind.replicaSet =>
    let t := { obj with anns := some (annsOrEmpty obj.anns) }
    let replicas : Int := match t.replicas with | some r => r | none => 1
    if replicas == 0 then (none, s)
    else
      let t := { t with
        anns := some (setAnn (annsOrEmpty t.anns) ReplicasAnn (toString replicas)),
        replicas := some 0 }
      let (e, s) := apiPatchTarget o s TKind.replicaSet t.nspace t.name cloned t
      match e with
      | some err => (some err, s)
      | none => (none, s)
  | TKind.deployment =>
    let t := { obj with anns := some (annsOrEmpty obj.anns) }
    let replicas : Int := match t.replicas with | some r => r | none => 1
    if replicas == 0 then (none, s)
    else
      let t := { t with
        anns := some (setAnn (annsOrEmpty t.anns) ReplicasAnn (toString replicas)),
        replicas := some 0 }
      let (e, s) := apiPatchTarget o s TKind.deployment t.nspace t.name cloned t
      match e with
      | some err => (some err, s)
      | none => (none, s)
  | TKind.statefulSet =>
    let t := { obj with anns := some (annsOrEmpty obj.anns) }
    let replicas : Int := match t.replicas with | some r => r | none => 1
    if replicas == 0 then (none, s)
    else
      let t := { t with
        anns := some (setAnn (annsOrEmpty t.anns) ReplicasAnn (toString replicas)),
        replicas := some 0 }
      let (e, s) := apiPatchTarget o s TKind.statefulSet t.nspace t.name cloned t
      match e with
      | some err => (some err, s)
      | none => (none, s)
  | TKind.other _ => (some (GoErr.other "unrecognized object"), s)

/-- `createPVC` of replace.go: defaults (10Gi, ReadWriteOnce, replacement
name, unset storage class) overridden by `PersistenceOptions`; the created
claim always carries a controller owner reference to the replacement; an
already-exists response is swallowed only when an explicit claim name was
supplied. -/
def createPVC (o : KubeOracle) (env : Env) (s : St) (replicaSet : ReplicaSet)
    (devPod : DevPod) : Option GoErr × St :=
  let sizeRes : Except GoErr String :=
    match devPod.persistenceOptions with
    | some po =>
      if po.size != "" then
        match env.parseQuantity po.size with
        | Except.ok q => Except.ok q
        | Except.error _ =>
          Except.error (GoErr.other ("error parsing persistent volume size " ++ po.size))
      else Except.ok "10Gi"
    | none => Except.ok "10Gi"
  match sizeRes with
  | Except.error e => (some e, s)
  | Except.ok size =>
    let storageClassName : Option String :=
      match devPod.persistenceOptions with
      | some po => if po.storageClassName != "" then some po.storageClassName else none
      | none => none
    let accessModes : List String :=
      match devPod.persistenceOptions with
      | some po =>
        match po.accessModes with
        | some ams => ams
        | none => ["ReadWriteOnce"]
      | none => ["ReadWriteOnce"]
    let name : String :=
      match devPod.persistenceOptions with
      | some po => if po.name != "" then po.name else replicaSet.name
      | none => replicaSet.name
    let pvc : PVC :=
      { name := name
        nspace := replicaSet.nspace
        ownerReferences := [{ apiVersion := "apps/v1", kind := "ReplicaSet",
                              name := replicaSet.name, uid := replicaSet.uid,
                              controller := some true }]
        accessModes := accessModes
        storageRequest := size
        storageClassName := storageClassName }
    let (e, s) := apiCreatePVC o s pvc
    match e with
    | some err =>
      if isAlreadyExists err
          && (match devPod.persistenceOptions with
              | some po => po.name != ""
              | none => false) then
        (none, s)
      else
        (some err, s)
    | none => (none, s)

/-- `deleteReplicaSet` of replace.go: delete, treating not-found as success. -/
def deleteReplicaSet (o : KubeOracle) (s : St) (replicaSet : ReplicaSet) : Option GoErr × St :=
  let (e, s) := apiDeleteRS o s replicaSet.nspace replicaSet.name
  match e with
  | some err =>
    if !(isNotFound err) then (some (GoErr.wrap "delete replica set" err), s)
    else (none, s)
  | none => (none, s)

/-- `updateNeeded` of replace.go: the update decision on an existing
replacement, returning the `(recreateNeeded, err)` pair. -/
def updateNeeded (o : KubeOracle) (env : Env) (s : St) (replicaSet : ReplicaSet)
    (devPod : DevPod) : (Bool × Option GoErr) × St :=
  if replicaSet.anns.isNone || lookAnn replicaSet.anns TargetKindAnn == ""
      || lookAnn replicaSet.anns TargetNameAnn == "" then
    let (e, s) := deleteReplicaSet o s replicaSet
    ((true, e), s)
  else
    match env.findTargetByKindName (lookAnn replicaSet.anns TargetKindAnn)
        replicaSet.nspace (lookAnn replicaSet.anns TargetNameAnn) with
    | Except.error err =>
      if isNotFound err then
        let (e, s) := deleteReplicaSet o s replicaSet
        ((true, e), s)
      else
        ((false, some err), s)
    | Except.ok target =>
      match env.buildReplicaSet replicaSet.name target devPod with
      | Except.error e => ((false, some e), s)
      | Except.ok newReplicaSet =>
        match env.hashConfig devPod with
        | Except.error e => ((false, some (GoErr.wrap "hash config" e)), s)
        | Except.ok configHash =>
          if newReplicaSet.template == replicaSet.template
              && configHash == lookAnn replicaSet.anns DevPodConfigHashAnn then
            let (e, s) := scaleDownTarget o s target
            let s := match e with
                     | some err => logA s (Action.logWarn err)
                     | none => s
            ((false, none), s)
          else
            let originalReplicaSet := replicaSet
            let replicaSet := { replicaSet with
              template := newReplicaSet.template,
              anns := some (setAnn (annsOrEmpty originalReplicaSet.anns)
                             DevPodConfigHashAnn configHash) }
            let (e, s) := apiPatchRS o s replicaSet.nspace replicaSet.name
                            originalReplicaSet replicaSet
            ((false, e), s)

/-- `replace` of replace.go: build the replacement, scale down the target,
create the replacement (an already-exists conflict retries the whole
`ReplacePod`, passed in as `retryReplacePod`), then provision the PVC with its
delete/poll/retry-once conflict handling. -/
def replace (o : KubeOracle) (env : Env)
    (retryReplacePod : St → DevPod → Option GoErr × St)
    (s : St) (replicaSetName : String) (target : Target) (devPod : DevPod) :
    Option GoErr × St :=
  match env.buildReplicaSet replicaSetName target devPod with
  | Except.error e => (some e, s)
  | Except.ok replicaSetObj =>
    let (e1, s) := scaleDownTarget o s target
    match e1 with
    | some e => (some (GoErr.wrap "scale down target" e), s)
    | none =>
      let (r, s) := apiCreateRS o s replicaSetObj
      match r with
      | Except.error err =>
        if isAlreadyExists err then
          retryReplacePod s devPod
        else
          (some (GoErr.wrap "create replica set" err), s)
      | Except.ok replicaSet =>
        let hasPersistPath :=
          devPod.containers.any (fun devContainer => devContainer.persistPaths.length > 0)
        if hasPersistPath then
          let (e2, s) := createPVC o env s replicaSet devPod
          match e2 with
          | some e =>
            if isAlreadyExists e then
              let (_, s) := apiDeletePVC o s replicaSet.nspace replicaSet.name
              let (e3, s) := waitPoll timeSecond (timeMinute * 2)
                  (fun s =>
                    let (ge, s) := apiGetPVC o s replicaSet.nspace replicaSet.name
                    ((match ge with
                      | some gerr => isNotFound gerr
                      | none => false), s)) s
              match e3 with
              | some e4 => (some (GoErr.wrap "waiting for pvc to terminate" e4), s)
              | none =>
                let (e5, s) := createPVC o env s replicaSet devPod
                match e5 with
                | some e6 => (some (GoErr.wrap "create persistent volume claim" e6), s)
                | none => (none, s)
            else
              (some (GoErr.wrap "create persistent volume claim" e), s)
          | none => (none, s)
        else
          (none, s)

/-- The fallthrough tail of `ReplacePod` (everything from the selector-based
target resolution on): resolve the target, persist the cache entry carrying
the derived `<targetName>-devspace` replacement name before any mutation, and
run `replace`; `retryReplacePod` is the recursive `ReplacePod` call used on a
create conflict. -/
def replacePodRest (o : KubeOracle) (env : Env)
    (retryReplacePod : St → DevPod → Option GoErr × St)
    (devPodCache : DevPodCache) (devPod : DevPod) (s : St) : Option GoErr × St :=
  match env.findTargetBySelector devPod with
  | Except.error err => (some err, s)
  | Except.ok none =>
    (some (GoErr.other "couldn\x27t find a matching deployment, statefulset or replica set"), s)
  | Except.ok (some target) =>
    let devPodCache := { devPodCache with
      targetKind := target.kind.kindString,
      targetName := target.name,
      replicaSet := target.name ++ "-devspace" }
    let s := cacheSet s devPodCache.name devPodCache
    let (err, s) := cacheSaveFn o s
    match err with
    | some e => (some e, s)
    | none =>
      let (err, s) := replace o env retryReplacePod s devPodCache.replicaSet target devPod
      match err with
      | some e => (some e, s)
      | none => (none, s)

/-- `ReplacePod` of replace.go, with explicit recursion fuel bounding the
create-conflict retry depth: consult the cache; with a replacement reference,
fetch the replica set named by the cache entry's `Name` field in the cached
namespace and run the update decision; otherwise (or on fallthrough) continue
with `replacePodRest`. -/
def ReplacePod (o : KubeOracle) (env : Env) : Nat → St → DevPod → Option GoErr × St
  | 0, s, _ => (some GoErr.outOfFuel, s)
  | n + 1, s, devPod =>
    let nspace := if devPod.nspace == "" then env.defaultNamespace else devPod.nspace
    let (found, ok) := cacheGet s devPod.name
    let devPodCache := if ok then found else { found with name := devPod.name, nspace := nspace }
    if devPodCache.replicaSet != "" then
      let (r, s) := apiGetRS o s devPodCache.nspace devPodCache.name
      match r with
      | Except.error err =>
        if !(isNotFound err) then (some (GoErr.wrap "find devspace replica set" err), s)
        else replacePodRest o env (fun s2 d2 => ReplacePod o env n s2 d2) devPodCache devPod s
      | Except.ok replicaSet =>
        let ((recreateNeeded, err), s) := updateNeeded o env s replicaSet devPod
        match err with
        | some e => (some e, s)
        | none =>
          if !recreateNeeded then (none, s)
          else replacePodRest o env (fun s2 d2 => ReplacePod o env n s2 d2) devPodCache devPod s
    else replacePodRest o env (fun s2 d2 => ReplacePod o env n s2 d2) devPodCache devPod s

/-- A benign static oracle to be overridden per scenario: reads find nothing,
mutations succeed. -/
def noopOracle : KubeOracle :=
  { getRS := fun _ _ _ => Except.error GoErr.notFound
    deleteRS := fun _ _ _ => none
    createRS := fun _ rs => Except.ok rs
    patchRS := fun _ _ _ _ _ => none
    patchTarget := fun _ _ _ _ _ _ => none
    createPVC := fun _ _ => none
    deletePVC := fun _ _ _ => none
    getPVC := fun _ _ _ => some GoErr.notFound
    saveCache := fun _ => none }

/-- A concrete deterministic environment to be overridden per scenario. -/
def dummyEnv : Env :=
  { findTargetBySelector := fun _ => Except.ok none
    findTargetByKindName := fun _ _ _ => Except.error GoErr.notFound
    buildReplicaSet := fun name t _ =>
      Except.ok { name := name, nspace := t.nspace, uid := "", anns := none,
                  template := t.template, replicas := some 1 }
    hashConfig := fun _ => Except.ok "h"
    parseQuantity := fun q => Except.ok q
    defaultNamespace := "default" }

/-- Cache entry of a previously replaced dev pod `app` whose target `web`
produced the replacement `web-devspace`. -/
def c1Cache : DevPodCache :=
  { name := "app", nspace := "ns", targetKind := "Deployment", targetName := "web",
    replicaSet := "web-devspace" }

/-- Initial state whose remote cache holds `c1Cache`. -/
def c1St : St := { time := 0, trace := [], cache := [("app", c1Cache)] }

/-- The dev pod `app` with no containers and no persistence options. -/
def c1DevPod : DevPod :=
  { name := "app", nspace := "ns", containers := [], persistenceOptions := none }

/-- Environment whose selector-based resolver fails, stopping the run right
after the replica-set fetch. -/
def c1Env : Env :=
  { dummyEnv with findTargetBySelector := fun _ => Except.error (GoErr.other "stop") }

/-- A deployment target `web` already scaled down to 0 replicas. -/
def c3Target : Target :=
  { kind := TKind.deployment, name := "web", nspace := "ns", anns := none,
    replicas := some 0, template := "tpl" }

/-- Static cluster in which the replacement `web-devspace` already exists:
creation always answers already-exists, reads by any other name find
nothing. -/
def c3Oracle : KubeOracle :=
  { noopOracle with createRS := fun _ _ => Except.error GoErr.alreadyExists }

/-- Environment resolving the selector of the dev pod to `c3Target`. -/
def c3Env : Env :=
  { dummyEnv with findTargetBySelector := fun _ => Except.ok (some c3Target) }

/-- The empty initial state. -/
def st0 : St := { time := 0, trace := [], cache := [] }

/-- The deployment target `web` at 3 replicas, for scale-down scenarios. -/
def wTarget : Target :=
  { kind := TKind.deployment, name := "web", nspace := "ns", anns := none,
    replicas := some 3, template := "tpl" }

/-- The live replacement replica set for the PVC scenarios. -/
def c6RS : ReplicaSet :=
  { name := "web-devspace", nspace := "ns", uid := "uid-1", anns := none,
    template := "tpl", replicas := some 1 }

/-- A dev pod with one persisted path and an explicit claim name. -/
def c6DevPod : DevPod :=
  { name := "app", nspace := "ns", containers := [{ persistPaths := ["/data"] }],
    persistenceOptions := some { size := "", storageClassName := "", accessModes := none,
                                 name := "my-claim" } }

/-- Cluster in which every claim creation answers already-exists. -/
def pvcConflictOracle : KubeOracle :=
  { noopOracle with createPVC := fun _ _ => some GoErr.alreadyExists }

/-- The dev pod `app` with one persisted path and no persistence options. -/
def c7DevPod : DevPod :=
  { name := "app", nspace := "ns", containers := [{ persistPaths := ["/data"] }],
    persistenceOptions := none }

/-- The claim request `createPVC` builds when no persistence options are
given: 10Gi, ReadWriteOnce, the replacement's name, cluster-default storage
class, controller-owned by the replacement. -/
def defaultPVC (rs : ReplicaSet) : PVC :=
  { name := rs.name
    nspace := rs.nspace
    ownerReferences := [{ apiVersion := "apps/v1", kind := "ReplicaSet",
                          name := rs.name, uid := rs.uid, controller := some true }]
    accessModes := ["ReadWriteOnce"]
    storageRequest := "10Gi"
    storageClassName := none }

/-- A live replacement annotated with its target and hash `"h"`. -/
def c2RS : ReplicaSet :=
  { name := "web-devspace", nspace := "ns", uid := "u",
    anns := some [(TargetKindAnn, "Deployment"), (TargetNameAnn, "web"),
                  (DevPodConfigHashAnn, "h")],
    template := "tpl", replicas := some 1 }

/-- Environment resolving the annotated target to `wTarget` and building a
replacement whose template `tpl2` differs from the live one. -/
def c2Env : Env :=
  { dummyEnv with
    findTargetByKindName := fun _ _ _ => Except.ok wTarget
    buildReplicaSet := fun name t _ =>
      Except.ok { name := name, nspace := t.nspace, uid := "", anns := none,
                  template := "tpl2", replicas := some 1 } }

/-- A stale replacement carrying no annotations at all. -/
def c9RS : ReplicaSet :=
  { name := "stale", nspace := "ns", uid := "u9", anns := none,
    template := "t", replicas := some 1 }

/-- Cluster whose target scale patch always fails and whose replica-set reads
return the live replacement `c2RS`. -/
def c10Oracle : KubeOracle :=
  { noopOracle with
    getRS := fun _ _ _ => Except.ok c2RS
    patchTarget := fun _ _ _ _ _ _ => some (GoErr.other "boom") }

/-- Environment resolving the annotated target to `wTarget` and rebuilding an
identical replacement (same template, same hash). -/
def c10Env : Env :=
  { dummyEnv with findTargetByKindName := fun _ _ _ => Except.ok wTarget }

/-- Cluster whose remote-cache save always fails. -/
def c4Oracle : KubeOracle :=
  { noopOracle with saveCache := fun _ => some (GoErr.other "savefail") }

/-- Cluster where the cached replacement is gone (every replica-set read
answers not-found) and the remote-cache save always fails. -/
def c4bOracle : KubeOracle :=
  { noopOracle with
    getRS := fun _ _ _ => Except.error GoErr.notFound
    saveCache := fun _ => some (GoErr.other "savefail") }

/-- The replacement object built for the C8 scenario. -/
def c8RS : ReplicaSet :=
  { name := "web-devspace", nspace := "ns", uid := "", anns := none,
    template := "tpl", replicas := some 1 }

/-- Cluster where claim creation always conflicts and the old claim never
terminates (every poll still finds it). -/
def c8Oracle : KubeOracle :=
  { noopOracle with
    createPVC := fun _ _ => some GoErr.alreadyExists
    getPVC := fun _ _ _ => none }

/-! ## Helper lemmas -/

/-- Initializing a nil map and then reading it back is the identity. -/
@[simp] theorem annsOrEmpty_some (l : Anns) : annsOrEmpty (some l) = l := rfl

/-- A target of a supported kind with replica count 0 is left untouched:
no annotation write, no patch request, no state change at all. -/
theorem scaleDownTarget_eq_zero (o : KubeOracle) (s : St) (t : Target)
    (hk : t.kind = TKind.replicaSet ∨ t.kind = TKind.deployment ∨ t.kind = TKind.statefulSet)
    (h0 : t.replicas = some 0) :
    scaleDownTarget o s t = (none, s) := by
  obtain ⟨k, nm, ns, a, rep, tpl⟩ := t
  simp only at h0
  subst h0
  rcases hk with hk | hk | hk <;> simp only at hk <;> subst hk <;>
    simp [scaleDownTarget]

/-- A supported target with a set, non-zero replica count gets exactly one
merge patch recording the original count and zeroing replicas. -/
theorem scaleDownTarget_eq_pos (o : KubeOracle) (s : St) (t : Target) (r : Int)
    (hk : t.kind = TKind.replicaSet ∨ t.kind = TKind.deployment ∨ t.kind = TKind.statefulSet)
    (hr : t.replicas = some r) (hne : r ≠ 0) :
    scaleDownTarget o s t =
      (o.patchTarget s.time t.kind t.nspace t.name t
         { t with anns := some (setAnn (annsOrEmpty t.anns) ReplicasAnn (toString r)),
                  replicas := some 0 },
       bump s (Action.patchTarget t.kind t.nspace t.name t
         { t with anns := some (setAnn (annsOrEmpty t.anns) ReplicasAnn (toString r)),
                  replicas := some 0 })) := by
  obtain ⟨k, nm, ns, a, rep, tpl⟩ := t
  simp only at hr
  subst hr
  rcases hk with hk | hk | hk <;> simp only at hk <;> subst hk <;>
    (simp only [scaleDownTarget, apiPatchTarget, annsOrEmpty_some]
     rw [if_neg (by simpa using hne)]
     cases h : o.patchTarget s.time _ ns nm _ _ <;> simp_all)

/-- A supported target with an unset replica count defaults to 1 and gets one
merge patch recording `"1"` and zeroing replicas. -/
theorem scaleDownTarget_eq_unset (o : KubeOracle) (s : St) (t : Target)
    (hk : t.kind = TKind.replicaSet ∨ t.kind = TKind.deployment ∨ t.kind = TKind.statefulSet)
    (hr : t.replicas = none) :
    scaleDownTarget o s t =
      (o.patchTarget s.time t.kind t.nspace t.name t
         { t with anns := some (setAnn (annsOrEmpty t.anns) ReplicasAnn (toString (1 : Int))),
                  replicas := some 0 },
       bump s (Action.patchTarget t.kind t.nspace t.name t
         { t with anns := some (setAnn (annsOrEmpty t.anns) ReplicasAnn (toString (1 : Int))),
                  replicas := some 0 })) := by
  obtain ⟨k, nm, ns, a, rep, tpl⟩ := t
  simp only at hr
  subst hr
  rcases hk with hk | hk | hk <;> simp only at hk <;> subst hk <;>
    (simp only [scaleDownTarget, apiPatchTarget, annsOrEmpty_some]
     rw [if_neg (by decide)]
     cases h : o.patchTarget s.time _ ns nm _ _ <;> simp_all)

/-- With no persistence options, `createPVC` issues exactly one creation
request for the fully defaulted claim and passes the response through. -/
theorem createPVC_no_options_eq (o : KubeOracle) (env : Env) (s : St) (rs : ReplicaSet)
    (devPod : DevPod) (hpo : devPod.persistenceOptions = none) :
    createPVC o env s rs devPod =
      (o.createPVC s.time (defaultPVC rs), bump s (Action.createPVC (defaultPVC rs))) := by
  simp only [createPVC, hpo, apiCreatePVC]
  cases h : o.createPVC s.time (defaultPVC rs) <;> simp_all [defaultPVC]

/-- The annotations-incomplete guard of `updateNeeded` is false when the map
is non-nil and both target annotations are non-empty. -/
theorem annCondFalse (rs : ReplicaSet) (hanns : rs.anns.isNone = false)
    (hkind : lookAnn rs.anns TargetKindAnn ≠ "") (hname : lookAnn rs.anns TargetNameAnn ≠ "") :
    (rs.anns.isNone || lookAnn rs.anns TargetKindAnn == ""
      || lookAnn rs.anns TargetNameAnn == "") = false := by
  simp [hanns, hkind, hname]

/-- `deleteReplicaSet` issues one delete request and maps not-found to
success. -/
theorem deleteReplicaSet_eq (o : KubeOracle) (s : St) (rs : ReplicaSet) :
    deleteReplicaSet o s rs =
      ((match o.deleteRS s.time rs.nspace rs.name with
        | some err => if !(isNotFound err) then some (GoErr.wrap "delete replica set" err) else none
        | none => none),
       bump s (Action.deleteRS rs.nspace rs.name)) := by
  simp only [deleteReplicaSet, apiDeleteRS]
  cases o.deleteRS s.time rs.nspace rs.name with
  | none => simp
  | some err => cases hnf : isNotFound err <;> simp [hnf]

/-- On incomplete annotations, `updateNeeded` reduces to a delete of the
stale replacement plus the recreate-needed flag. -/
theorem updateNeeded_missing_ann_eq (o : KubeOracle) (env : Env) (s : St)
    (rs : ReplicaSet) (devPod : DevPod)
    (hc : (rs.anns.isNone || lookAnn rs.anns TargetKindAnn == ""
            || lookAnn rs.anns TargetNameAnn == "") = true) :
    updateNeeded o env s rs devPod =
      ((true, (deleteReplicaSet o s rs).1), (deleteReplicaSet o s rs).2) := by
  simp only [updateNeeded, hc]
  rcases hdel : deleteReplicaSet o s rs with ⟨e, s1⟩
  simp [hdel]

/-- When the annotated target resolves as not-found, `updateNeeded` reduces
to a delete of the stale replacement plus the recreate-needed flag. -/
theorem updateNeeded_target_gone_eq (o : KubeOracle) (env : Env) (s : St)
    (rs : ReplicaSet) (devPod : DevPod)
    (hc : (rs.anns.isNone || lookAnn rs.anns TargetKindAnn == ""
            || lookAnn rs.anns TargetNameAnn == "") = false)
    (hfind : env.findTargetByKindName (lookAnn rs.anns TargetKindAnn) rs.nspace
               (lookAnn rs.anns TargetNameAnn) = Except.error GoErr.notFound) :
    updateNeeded o env s rs devPod =
      ((true, (deleteReplicaSet o s rs).1), (deleteReplicaSet o s rs).2) := by
  simp only [updateNeeded, hc, hfind]
  rcases hdel : deleteReplicaSet o s rs with ⟨e, s1⟩
  simp [hdel, isNotFound]

/-- Any other target-resolution error is propagated untouched, with no
request issued. -/
theorem updateNeeded_resolution_error_eq (o : KubeOracle) (env : Env) (s : St)
    (rs : ReplicaSet) (devPod : DevPod) (err : GoErr)
    (hc : (rs.anns.isNone || lookAnn rs.anns TargetKindAnn == ""
            || lookAnn rs.anns TargetNameAnn == "") = false)
    (hfind : env.findTargetByKindName (lookAnn rs.anns TargetKindAnn) rs.nspace
               (lookAnn rs.anns TargetNameAnn) = Except.error err)
    (hnf : isNotFound err = false) :
    updateNeeded o env s rs devPod = ((false, some err), s) := by
  simp only [updateNeeded, hc, hfind, hnf]
  simp

/-- When template and hash both match, `updateNeeded` re-asserts the
scale-down, logs (but swallows) its error, and reports no recreate. -/
theorem updateNeeded_equal_eq (o : KubeOracle) (env : Env) (s : St)
    (rs : ReplicaSet) (devPod : DevPod) (target : Target) (newRS : ReplicaSet) (h : String)
    (hc : (rs.anns.isNone || lookAnn rs.anns TargetKindAnn == ""
            || lookAnn rs.anns TargetNameAnn == "") = false)
    (hfind : env.findTargetByKindName (lookAnn rs.anns TargetKindAnn) rs.nspace
               (lookAnn rs.anns TargetNameAnn) = Except.ok target)
    (hbuild : env.buildReplicaSet rs.name target devPod = Except.ok newRS)
    (hhash : env.hashConfig devPod = Except.ok h)
    (heqt : newRS.template = rs.template)
    (heqh : h = lookAnn rs.anns DevPodConfigHashAnn) :
    updateNeeded o env s rs devPod =
      ((false, none),
       match (scaleDownTarget o s target).1 with
       | some err => logA (scaleDownTarget o s target).2 (Action.logWarn err)
       | none => (scaleDownTarget o s target).2) := by
  simp only [updateNeeded, hc, hfind, hbuild, hhash, heqt, heqh]
  rcases hsd : scaleDownTarget o s target with ⟨e1, s1⟩
  cases e1 <;> simp [hsd]

/-- When the template or the hash differs, `updateNeeded` issues exactly one
merge patch rewriting only the pod template and the hash annotation. -/
theorem updateNeeded_differ_eq (o : KubeOracle) (env : Env) (s : St)
    (rs : ReplicaSet) (devPod : DevPod) (target : Target) (newRS : ReplicaSet) (h : String)
    (hc : (rs.anns.isNone || lookAnn rs.anns TargetKindAnn == ""
            || lookAnn rs.anns TargetNameAnn == "") = false)
    (hfind : env.findTargetByKindName (lookAnn rs.anns TargetKindAnn) rs.nspace
               (lookAnn rs.anns TargetNameAnn) = Except.ok target)
    (hbuild : env.buildReplicaSet rs.name target devPod = Except.ok newRS)
    (hhash : env.hashConfig devPod = Except.ok h)
    (hdif : ¬(newRS.template = rs.template ∧ h = lookAnn rs.anns DevPodConfigHashAnn)) :
    updateNeeded o env s rs devPod =
      ((false, o.patchRS s.time rs.nspace rs.name rs
          { rs with template := newRS.template,
                    anns := some (setAnn (annsOrEmpty rs.anns) DevPodConfigHashAnn h) }),
       bump s (Action.patchRS rs.nspace rs.name rs
          { rs with template := newRS.template,
                    anns := some (setAnn (annsOrEmpty rs.anns) DevPodConfigHashAnn h) })) := by
  have hd : (newRS.template == rs.template
      && h == lookAnn rs.anns DevPodConfigHashAnn) = false := by
    rcases not_and_or.mp hdif with hx | hx <;> simp [hx]
  simp only [updateNeeded, hc, hfind, hbuild, hhash, hd, apiPatchRS]
  simp

/-- `scaleDownTarget` only ever appends target scale patches to the trace. -/
theorem scaleDownTarget_trace (o : KubeOracle) (s : St) (t : Target) :
    ∃ p, (scaleDownTarget o s t).2.trace = s.trace ++ p
      ∧ p.all Action.isPatchTarget = true := by
  by_cases hk : t.kind = TKind.replicaSet ∨ t.kind = TKind.deployment
      ∨ t.kind = TKind.statefulSet
  · cases hrep : t.replicas with
    | none =>
      rw [scaleDownTarget_eq_unset o s t hk hrep]
      exact ⟨[Action.patchTarget t.kind t.nspace t.name t
        { t with anns := some (setAnn (annsOrEmpty t.anns) ReplicasAnn (toString (1 : Int))),
                 replicas := some 0 }], by simp [bump], rfl⟩
    | some r =>
      by_cases hr : r = 0
      · subst hr
        rw [scaleDownTarget_eq_zero o s t hk hrep]
        exact ⟨[], by simp, rfl⟩
      · rw [scaleDownTarget_eq_pos o s t r hk hrep hr]
        exact ⟨[Action.patchTarget t.kind t.nspace t.name t
          { t with anns := some (setAnn (annsOrEmpty t.anns) ReplicasAnn (toString r)),
                   replicas := some 0 }], by simp [bump], rfl⟩
  · obtain ⟨k, nm, ns, a, rep, tpl⟩ := t
    cases k with
    | other k2 => exact ⟨[], by simp [scaleDownTarget], rfl⟩
    | replicaSet => exact absurd (Or.inl rfl) hk
    | deployment => exact absurd (Or.inr (Or.inl rfl)) hk
    | statefulSet => exact absurd (Or.inr (Or.inr rfl)) hk

/-- Target scale patches and warning logs are not replica-set patches,
deletions or creations. -/
theorem all_not_rsmut_of_patch_warn (p w : List Action)
    (hp : p.all Action.isPatchTarget = true) (hw : w.all Action.isLogWarn = true) :
    ((p ++ w).all (fun a => !(a.isPatchRS || a.isDeleteRS || a.isCreateRS))) = true := by
  rw [List.all_append, Bool.and_eq_true]
  simp only [List.all_eq_true] at hp hw ⊢
  refine ⟨fun a ha => ?_, fun a ha => ?_⟩
  · have := hp a ha
    cases a <;> simp_all [Action.isPatchTarget, Action.isPatchRS, Action.isDeleteRS,
      Action.isCreateRS]
  · have := hw a ha
    cases a <;> simp_all [Action.isLogWarn, Action.isPatchRS, Action.isDeleteRS,
      Action.isCreateRS]

/-- Dropping the pre-existing trace of a run that appended scale patches and
warnings leaves no replica-set mutation. -/
theorem drop_all_not_rsmut (base p w : List Action)
    (hp : p.all Action.isPatchTarget = true) (hw : w.all Action.isLogWarn = true) :
    ((((base ++ p) ++ w).drop base.length).all
      (fun a => !(a.isPatchRS || a.isDeleteRS || a.isCreateRS))) = true := by
  rw [List.append_assoc, List.drop_left]
  exact all_not_rsmut_of_patch_warn p w hp hw

/-- Chaining two trace extensions. -/
theorem trace_ext_trans {x : List Action} {s1 s2 : St}
    (h1 : ∃ t, s1.trace = x ++ t) (h2 : ∃ t, s2.trace = s1.trace ++ t) :
    ∃ t, s2.trace = x ++ t := by
  obtain ⟨a, ha⟩ := h1
  obtain ⟨b, hb⟩ := h2
  exact ⟨a ++ b, by rw [hb, ha, List.append_assoc]⟩

/-- `scaleDownTarget` only appends to the trace. -/
theorem scaleDownTarget_ext (o : KubeOracle) (s : St) (t : Target) :
    ∃ p, (scaleDownTarget o s t).2.trace = s.trace ++ p := by
  obtain ⟨p, hp, _⟩ := scaleDownTarget_trace o s t
  exact ⟨p, hp⟩

/-- `createPVC` only appends to the trace. -/
theorem createPVC_ext (o : KubeOracle) (env : Env) (s : St) (rs : ReplicaSet)
    (devPod : DevPod) :
    ∃ t, (createPVC o env s rs devPod).2.trace = s.trace ++ t := by
  simp only [createPVC, apiCreatePVC]
  split
  · exact ⟨[], by simp⟩
  · split
    · split
      · exact ⟨_, rfl⟩
      · exact ⟨_, rfl⟩
    · exact ⟨_, rfl⟩

/-- `deleteReplicaSet` only appends to the trace. -/
theorem deleteReplicaSet_ext (o : KubeOracle) (s : St) (rs : ReplicaSet) :
    ∃ t, (deleteReplicaSet o s rs).2.trace = s.trace ++ t := by
  rw [deleteReplicaSet_eq]
  exact ⟨_, rfl⟩

/-- `updateNeeded` only appends to the trace. -/
theorem updateNeeded_ext (o : KubeOracle) (env : Env) (s : St) (rs : ReplicaSet)
    (devPod : DevPod) :
    ∃ t, (updateNeeded o env s rs devPod).2.trace = s.trace ++ t := by
  by_cases hc : (rs.anns.isNone || lookAnn rs.anns TargetKindAnn == ""
      || lookAnn rs.anns TargetNameAnn == "") = true
  · rw [updateNeeded_missing_ann_eq o env s rs devPod hc, deleteReplicaSet_eq]
    exact ⟨_, rfl⟩
  · have hc2 : (rs.anns.isNone || lookAnn rs.anns TargetKindAnn == ""
        || lookAnn rs.anns TargetNameAnn == "") = false := by
      rwa [Bool.not_eq_true] at hc
    cases hft : env.findTargetByKindName (lookAnn rs.anns TargetKindAnn) rs.nspace
        (lookAnn rs.anns TargetNameAnn) with
    | error err =>
      by_cases hnf : isNotFound err = true
      · have herr : err = GoErr.notFound := by
          cases err <;> simp_all [isNotFound]
        subst herr
        rw [updateNeeded_target_gone_eq o env s rs devPod hc2 hft, deleteReplicaSet_eq]
        exact ⟨_, rfl⟩
      · rw [updateNeeded_resolution_error_eq o env s rs devPod err hc2 hft
          (by simpa using hnf)]
        exact ⟨[], by simp⟩
    | ok target =>
      simp only [updateNeeded]
      rw [if_neg hc, hft]
      dsimp only
      cases hbl : env.buildReplicaSet rs.name target devPod with
      | error e => exact ⟨[], by simp⟩
      | ok newRS =>
        dsimp only
        cases hh : env.hashConfig devPod with
        | error e => exact ⟨[], by simp⟩
        | ok cfg =>
          dsimp only
          by_cases he : (newRS.template == rs.template
              && cfg == lookAnn rs.anns DevPodConfigHashAnn) = true
          · simp only [he, if_true]
            rcases hsd : scaleDownTarget o s target with ⟨e1, s1⟩
            have h1 := scaleDownTarget_ext o s target
            rw [hsd] at h1
            cases e1 with
            | some err => exact trace_ext_trans h1 ⟨[Action.logWarn err], rfl⟩
            | none => simpa using h1
          · rw [if_neg he]
            simp only [apiPatchRS]
            exact ⟨_, rfl⟩

/-- The `wait.Poll` check loop only appends to the trace when its condition
does. -/
theorem waitPollAux_ext (c : St → Bool × St)
    (hc : ∀ s : St, ∃ t, (c s).2.trace = s.trace ++ t) :
    ∀ (k : Nat) (s : St), ∃ t, (waitPollAux c k s).2.trace = s.trace ++ t := by
  intro k
  induction k with
  | zero => intro s; exact ⟨[], by simp [waitPollAux]⟩
  | succ n ih =>
    intro s
    simp only [waitPollAux]
    rcases hcs : c s with ⟨done, s1⟩
    have h1 : ∃ t, s1.trace = s.trace ++ t := by
      have h2 := hc s
      rwa [hcs] at h2
    cases done with
    | true => simpa using h1
    | false => simpa using trace_ext_trans h1 (ih s1)

/-- `replace` only appends to the trace, provided its retry continuation
does. -/
theorem replace_ext (o : KubeOracle) (env : Env)
    (retry : St → DevPod → Option GoErr × St)
    (hr : ∀ (s : St) (d : DevPod), ∃ t, (retry s d).2.trace = s.trace ++ t)
    (s : St) (rn : String) (target : Target) (d : DevPod) :
    ∃ t, (replace o env retry s rn target d).2.trace = s.trace ++ t := by
  simp only [replace]
  split
  · exact ⟨[], by simp⟩
  · rcases hsc : scaleDownTarget o s target with ⟨e1, s1⟩
    have h1 : ∃ t, s1.trace = s.trace ++ t := by
      have h2 := scaleDownTarget_ext o s target
      rwa [hsc] at h2
    cases e1 with
    | some e => simpa using h1
    | none =>
      simp only [apiCreateRS]
      next rsObj _ =>
      have h2 : ∃ t, (bump s1 (Action.createRS rsObj)).trace = s.trace ++ t :=
        trace_ext_trans h1 ⟨[Action.createRS rsObj], rfl⟩
      cases hcr : o.createRS s1.time rsObj with
      | error err =>
        by_cases ha : isAlreadyExists err = true
        · simpa [ha] using trace_ext_trans h2 (hr _ d)
        · simp only [Bool.not_eq_true] at ha
          simpa [ha] using h2
      | ok rsC =>
        by_cases hp : (d.containers.any fun devContainer =>
            decide (devContainer.persistPaths.length > 0)) = true
        · simp only [hp, if_true]
          rcases hc1 : createPVC o env (bump s1 (Action.createRS rsObj)) rsC d with ⟨e2, s2⟩
          have h3 : ∃ t, s2.trace = s.trace ++ t := by
            have h4 := createPVC_ext o env (bump s1 (Action.createRS rsObj)) rsC d
            rw [hc1] at h4
            exact trace_ext_trans h2 h4
          cases e2 with
          | none => simpa using h3
          | some e =>
            by_cases ha : isAlreadyExists e = true
            · simp only [ha, if_true]
              rcases hdp : apiDeletePVC o s2 rsC.nspace rsC.name with ⟨e3, s3⟩
              have h4 : ∃ t, s3.trace = s.trace ++ t := by
                have h5 : s3 = bump s2 (Action.deletePVC rsC.nspace rsC.name) :=
                  congrArg Prod.snd hdp.symm
                exact trace_ext_trans h3 ⟨[Action.deletePVC rsC.nspace rsC.name],
                  by rw [h5]; rfl⟩
              rcases hwp : waitPoll timeSecond (timeMinute * 2)
                  (fun s4 =>
                    let (ge, s5) := apiGetPVC o s4 rsC.nspace rsC.name
                    ((match ge with
                      | some gerr => isNotFound gerr
                      | none => false), s5)) s3 with ⟨e4, s6⟩
              have h6 : ∃ t, s6.trace = s.trace ++ t := by
                have h7 := waitPollAux_ext
                  (fun s4 =>
                    let (ge, s5) := apiGetPVC o s4 rsC.nspace rsC.name
                    ((match ge with
                      | some gerr => isNotFound gerr
                      | none => false), s5))
                  (fun s4 => ⟨[Action.getPVC rsC.nspace rsC.name], rfl⟩)
                  ((timeMinute * 2) / timeSecond) s3
                rw [show waitPollAux _ ((timeMinute * 2) / timeSecond) s3 = (e4, s6)
                  from hwp] at h7
                exact trace_ext_trans h4 h7
              cases e4 with
              | some e5 => simpa [hdp, hwp] using h6
              | none =>
                rcases hc2 : createPVC o env s6 rsC d with ⟨e6, s7⟩
                have h8 : ∃ t, s7.trace = s.trace ++ t := by
                  have h9 := createPVC_ext o env s6 rsC d
                  rw [hc2] at h9
                  exact trace_ext_trans h6 h9
                cases e6 with
                | some e7 => simpa [hdp, hwp, hc2] using h8
                | none => simpa [hdp, hwp, hc2] using h8
            · simp only [Bool.not_eq_true] at ha
              simpa [ha] using h3
        · simp only [Bool.not_eq_true] at hp
          simpa [hp] using h2

/-- `replacePodRest` only appends to the trace, provided its retry
continuation does. -/
theorem replacePodRest_ext (o : KubeOracle) (env : Env)
    (retry : St → DevPod → Option GoErr × St)
    (hr : ∀ (s : St) (d : DevPod), ∃ t, (retry s d).2.trace = s.trace ++ t)
    (dpc : DevPodCache) (d : DevPod) (s : St) :
    ∃ t, (replacePodRest o env retry dpc d s).2.trace = s.trace ++ t := by
  simp only [replacePodRest]
  cases hft : env.findTargetBySelector d with
  | error err => exact ⟨[], by simp⟩
  | ok tgt =>
    cases tgt with
    | none => exact ⟨[], by simp⟩
    | some target =>
      simp only
      rcases hsv : cacheSaveFn o (cacheSet s dpc.name { dpc with
        targetKind := target.kind.kindString,
        targetName := target.name,
        replicaSet := target.name ++ "-devspace" }) with ⟨err, s3⟩
      have h3 : ∃ t, s3.trace = s.trace ++ t := by
        have h4 : s3 = bump (cacheSet s dpc.name _) (Action.cacheSave (cacheSet s dpc.name { dpc with
            targetKind := target.kind.kindString,
            targetName := target.name,
            replicaSet := target.name ++ "-devspace" }).cache) :=
          congrArg Prod.snd hsv.symm
        exact ⟨[Action.cacheSave _], by rw [h4]; rfl⟩
      cases err with
      | some e => simpa [hsv] using h3
      | none =>
        rcases hrp : replace o env retry s3 (target.name ++ "-devspace") target d
          with ⟨err2, s4⟩
        have h5 : ∃ t, s4.trace = s.trace ++ t := by
          have h6 := replace_ext o env retry hr s3 (target.name ++ "-devspace") target d
          rw [hrp] at h6
          exact trace_ext_trans h3 h6
        cases err2 with
        | some e => simpa [hsv, hrp] using h5
        | none => simpa [hsv, hrp] using h5

/-- `ReplacePod` only appends to the trace, at every fuel level. -/
theorem ReplacePod_ext (o : KubeOracle) (env : Env) :
    ∀ (n : Nat) (s : St) (d : DevPod),
      ∃ t, (ReplacePod o env n s d).2.trace = s.trace ++ t := by
  intro n
  induction n with
  | zero => intro s d; exact ⟨[], by simp [ReplacePod]⟩
  | succ n ih =>
    intro s d
    simp only [ReplacePod]
    rcases hcg : cacheGet s d.name with ⟨found, ok⟩
    dsimp only
    set entry := (if ok = true then found
      else { found with
              name := d.name,
              nspace := if d.nspace == "" then env.defaultNamespace else d.nspace })
    by_cases hrf : (entry.replicaSet != "") = true
    · rw [if_pos hrf]
      simp only [apiGetRS]
      cases hg : o.getRS s.time entry.nspace entry.name with
      | error err =>
        by_cases hnf : isNotFound err = true
        · simp only [hnf, Bool.not_true, Bool.false_eq_true, if_false]
          exact trace_ext_trans (⟨[Action.getRS entry.nspace entry.name], rfl⟩ :
              ∃ t, (bump s (Action.getRS entry.nspace entry.name)).trace = s.trace ++ t)
            (replacePodRest_ext o env _ (fun s5 d2 => ih s5 d2) entry d _)
        · simp only [Bool.not_eq_true] at hnf
          simp only [hnf, Bool.not_false, if_true]
          exact ⟨_, rfl⟩
      | ok rsGot =>
        rcases hup : updateNeeded o env (bump s (Action.getRS entry.nspace entry.name))
            rsGot d with ⟨⟨recreate, err⟩, s1⟩
        simp only [hup]
        have h1 : ∃ t, s1.trace = s.trace ++ t := by
          have h2 := updateNeeded_ext o env (bump s (Action.getRS entry.nspace entry.name))
            rsGot d
          rw [hup] at h2
          exact trace_ext_trans ⟨[Action.getRS entry.nspace entry.name], rfl⟩ h2
        cases err with
        | some e => simpa using h1
        | none =>
          cases recreate with
          | false => simpa using h1
          | true =>
            simp only [Bool.not_true, Bool.false_eq_true, if_false]
            exact trace_ext_trans h1 (replacePodRest_ext o env
              (fun s2 d2 => ReplacePod o env n s2 d2) (fun s5 d2 => ih s5 d2) entry d s1)
    · rw [if_neg hrf]
      exact replacePodRest_ext o env
        (fun s2 d2 => ReplacePod o env n s2 d2) (fun s5 d2 => ih s5 d2) entry d s

/-- A cache miss yields the zero entry. -/
theorem cacheGet_miss (s : St) (n : String) (h : (cacheGet s n).2 = false) :
    cacheGet s n = (DevPodCache.zero, false) := by
  simp only [cacheGet] at h ⊢
  cases hf : s.cache.find? (fun p => p.1 == n) with
  | none => simp [hf]
  | some p => simp [hf] at h

/-! ## Claim theorems -/

/-- C1: the spec says that when the cache entry's `ReplicaSet` field is
non-empty, `ReplacePod` fetches the replacement by the cached replacement
name (`"web-devspace"`); the code issues the get with the cached dev pod name
instead: with entry `c1Cache` the only fetch request is
`getRS "ns" "app"`, and no request ever names `"web-devspace"`. -/
theorem c1_fetch_uses_devpod_name_not_replacement_name :
    (ReplacePod noopOracle c1Env 1 c1St c1DevPod).2.trace = [Action.getRS "ns" "app"]
    ∧ c1Cache.replicaSet = "web-devspace"
    ∧ c1Cache.name = "app"
    ∧ ((ReplacePod noopOracle c1Env 1 c1St c1DevPod).2.trace.filter
        (fun a => a == Action.getRS "ns" "web-devspace")) = [] := by
  decide

/-- C3: the claim bounds the create-conflict retry recursion depth by 1. In
the static cluster `c3Oracle` — the replacement `web-devspace` already exists,
the target is already scaled down, and no object named `app` exists — every
pass ends in an already-exists conflict and retries from the top, so with fuel
3 the run exhausts its fuel after three creation attempts instead of stopping
after one retry. -/
theorem c3_create_conflict_retry_exceeds_depth_one :
    (ReplacePod c3Oracle c3Env 3 st0 c1DevPod).1 = some GoErr.outOfFuel
    ∧ ((ReplacePod c3Oracle c3Env 3 st0 c1DevPod).2.trace.filter Action.isCreateRS).length
        = 3 := by
  decide

/-- C5: a supported target already at 0 replicas is untouched by
`scaleDownTarget` (no patch request, no annotation write, success); a target
with non-zero count `r` gets exactly one merge patch that records `r` as a
decimal string in the replicas annotation and zeroes replicas; an unset count
defaults to 1 and is patched likewise. -/
theorem scaleDownTarget_zero_noop_nonzero_records
    (o : KubeOracle) (s : St) (t : Target)
    (hk : t.kind = TKind.replicaSet ∨ t.kind = TKind.deployment ∨ t.kind = TKind.statefulSet) :
    (t.replicas = some 0 → scaleDownTarget o s t = (none, s))
    ∧ (∀ r : Int, t.replicas = some r → r ≠ 0 →
        scaleDownTarget o s t =
          (o.patchTarget s.time t.kind t.nspace t.name t
             { t with anns := some (setAnn (annsOrEmpty t.anns) ReplicasAnn (toString r)),
                      replicas := some 0 },
           bump s (Action.patchTarget t.kind t.nspace t.name t
             { t with anns := some (setAnn (annsOrEmpty t.anns) ReplicasAnn (toString r)),
                      replicas := some 0 })))
    ∧ (t.replicas = none →
        scaleDownTarget o s t =
          (o.patchTarget s.time t.kind t.nspace t.name t
             { t with anns := some (setAnn (annsOrEmpty t.anns) ReplicasAnn (toString (1 : Int))),
                      replicas := some 0 },
           bump s (Action.patchTarget t.kind t.nspace t.name t
             { t with anns := some (setAnn (annsOrEmpty t.anns) ReplicasAnn (toString (1 : Int))),
                      replicas := some 0 }))) :=
  ⟨fun h0 => scaleDownTarget_eq_zero o s t hk h0,
   fun r hr hne => scaleDownTarget_eq_pos o s t r hk hr hne,
   fun hr => scaleDownTarget_eq_unset o s t hk hr⟩

/-- C5 witness: the deployment `web` at 3 replicas is patched once, with the
annotation `"3"` recorded and replicas zeroed. -/
theorem scaleDownTarget_zero_noop_nonzero_records_witness :
    (wTarget.kind = TKind.replicaSet ∨ wTarget.kind = TKind.deployment
      ∨ wTarget.kind = TKind.statefulSet)
    ∧ wTarget.replicas = some 3
    ∧ scaleDownTarget noopOracle st0 wTarget =
        (none, bump st0 (Action.patchTarget TKind.deployment "ns" "web" wTarget
          { wTarget with anns := some [(ReplicasAnn, "3")], replicas := some 0 })) := by
  refine ⟨Or.inr (Or.inl rfl), rfl, ?_⟩
  have h := (scaleDownTarget_zero_noop_nonzero_records noopOracle st0 wTarget
    (Or.inr (Or.inl rfl))).2.1 3 rfl (by decide)
  rw [h]
  decide

/-- C6: the spec sets the controller owner reference only when no explicit
claim name was supplied; the code attaches it unconditionally: with explicit
name `"my-claim"` the created claim still carries the controller owner
reference to `web-devspace`. The adoption half of the claim holds: an
already-exists answer with an explicit name is returned as success. -/
theorem c6_owner_reference_set_despite_explicit_name :
    (createPVC noopOracle dummyEnv st0 c6RS c6DevPod).2.trace =
      [Action.createPVC
        { name := "my-claim", nspace := "ns",
          ownerReferences := [{ apiVersion := "apps/v1", kind := "ReplicaSet",
                                name := "web-devspace", uid := "uid-1",
                                controller := some true }],
          accessModes := ["ReadWriteOnce"], storageRequest := "10Gi",
          storageClassName := none }]
    ∧ (match c6DevPod.persistenceOptions with
       | some po => po.name
       | none => "") = "my-claim"
    ∧ ([{ apiVersion := "apps/v1", kind := "ReplicaSet", name := "web-devspace",
          uid := "uid-1", controller := some true }] ≠ ([] : List OwnerReference))
    ∧ (createPVC pvcConflictOracle dummyEnv st0 c6RS c6DevPod).1 = none := by
  decide

/-- C7: with no persistence options the claim request has exactly a 10Gi
storage request, the single access mode ReadWriteOnce, an unset storage class
and the replacement replica set's name, and exactly one creation request is
issued. -/
theorem createPVC_defaults_when_no_options
    (o : KubeOracle) (env : Env) (s : St) (rs : ReplicaSet) (devPod : DevPod)
    (hpo : devPod.persistenceOptions = none) :
    createPVC o env s rs devPod =
      (o.createPVC s.time
         { name := rs.name, nspace := rs.nspace,
           ownerReferences := [{ apiVersion := "apps/v1", kind := "ReplicaSet",
                                 name := rs.name, uid := rs.uid, controller := some true }],
           accessModes := ["ReadWriteOnce"], storageRequest := "10Gi",
           storageClassName := none },
       bump s (Action.createPVC
         { name := rs.name, nspace := rs.nspace,
           ownerReferences := [{ apiVersion := "apps/v1", kind := "ReplicaSet",
                                 name := rs.name, uid := rs.uid, controller := some true }],
           accessModes := ["ReadWriteOnce"], storageRequest := "10Gi",
           storageClassName := none })) :=
  createPVC_no_options_eq o env s rs devPod hpo

/-- C7 witness: the concrete dev pod `c7DevPod` (no persistence options)
against `web-devspace` yields the fully defaulted 10Gi claim. -/
theorem createPVC_defaults_when_no_options_witness :
    c7DevPod.persistenceOptions = none
    ∧ createPVC noopOracle dummyEnv st0 c6RS c7DevPod =
        (none, bump st0 (Action.createPVC
          { name := "web-devspace", nspace := "ns",
            ownerReferences := [{ apiVersion := "apps/v1", kind := "ReplicaSet",
                                  name := "web-devspace", uid := "uid-1",
                                  controller := some true }],
            accessModes := ["ReadWriteOnce"], storageRequest := "10Gi",
            storageClassName := none })) := by
  refine ⟨rfl, ?_⟩
  rw [createPVC_defaults_when_no_options noopOracle dummyEnv st0 c6RS c7DevPod rfl]
  decide

/-- C2: on an existing replacement with intact annotations and a resolvable
target, if the freshly built template and config hash both equal the live
ones, the decision reports no recreate, patches nothing on the replacement
(the only appended requests are the re-asserted scale-down patch plus at most
a warning log), and never deletes or creates a replica set; if either
differs, exactly one merge patch rewriting only the pod template and the
hash annotation is issued, again reporting no recreate. -/
theorem updateNeeded_patch_in_place_decision
    (o : KubeOracle) (env : Env) (s : St) (rs : ReplicaSet) (devPod : DevPod)
    (target : Target) (newRS : ReplicaSet) (h : String)
    (hanns : rs.anns.isNone = false)
    (hkind : lookAnn rs.anns TargetKindAnn ≠ "")
    (hname : lookAnn rs.anns TargetNameAnn ≠ "")
    (hfind : env.findTargetByKindName (lookAnn rs.anns TargetKindAnn) rs.nspace
               (lookAnn rs.anns TargetNameAnn) = Except.ok target)
    (hbuild : env.buildReplicaSet rs.name target devPod = Except.ok newRS)
    (hhash : env.hashConfig devPod = Except.ok h) :
    (newRS.template = rs.template ∧ h = lookAnn rs.anns DevPodConfigHashAnn →
      (updateNeeded o env s rs devPod).1 = (false, none)
      ∧ (∃ w, (updateNeeded o env s rs devPod).2.trace =
            (scaleDownTarget o s target).2.trace ++ w ∧ w.all Action.isLogWarn = true)
      ∧ (((updateNeeded o env s rs devPod).2.trace.drop s.trace.length).all
          (fun a => !(a.isPatchRS || a.isDeleteRS || a.isCreateRS))) = true)
    ∧ (¬(newRS.template = rs.template ∧ h = lookAnn rs.anns DevPodConfigHashAnn) →
      updateNeeded o env s rs devPod =
        ((false, o.patchRS s.time rs.nspace rs.name rs
            { rs with template := newRS.template,
                      anns := some (setAnn (annsOrEmpty rs.anns) DevPodConfigHashAnn h) }),
         bump s (Action.patchRS rs.nspace rs.name rs
            { rs with template := newRS.template,
                      anns := some (setAnn (annsOrEmpty rs.anns) DevPodConfigHashAnn h) }))) := by
  have hc := annCondFalse rs hanns hkind hname
  constructor
  · rintro ⟨heqt, heqh⟩
    have he := updateNeeded_equal_eq o env s rs devPod target newRS h hc hfind hbuild hhash
      heqt heqh
    obtain ⟨p, hp, hpall⟩ := scaleDownTarget_trace o s target
    refine ⟨by rw [he], ?_, ?_⟩
    · rw [he]
      cases hsd : (scaleDownTarget o s target).1 with
      | some err => exact ⟨[Action.logWarn err], by simp [logA], rfl⟩
      | none => exact ⟨[], by simp, rfl⟩
    · rw [he]
      cases hsd : (scaleDownTarget o s target).1 with
      | some err =>
        have htr : (logA (scaleDownTarget o s target).2 (Action.logWarn err)).trace
            = (s.trace ++ p) ++ [Action.logWarn err] := by simp [logA, hp]
        show ((logA (scaleDownTarget o s target).2 (Action.logWarn err)).trace.drop
          s.trace.length).all _ = true
        rw [htr]
        exact drop_all_not_rsmut s.trace p [Action.logWarn err] hpall rfl
      | none =>
        show (((scaleDownTarget o s target).2.trace).drop s.trace.length).all _ = true
        rw [hp]
        have := drop_all_not_rsmut s.trace p [] hpall rfl
        rwa [List.append_nil] at this
  · intro hdif
    exact updateNeeded_differ_eq o env s rs devPod target newRS h hc hfind hbuild hhash hdif

/-- C2 witness: against `c2RS` (live template `tpl`, hash `"h"`) and a fresh
build with template `tpl2`, the decision issues exactly the single template
and hash merge patch and reports no recreate. -/
theorem updateNeeded_patch_in_place_decision_witness :
    (lookAnn c2RS.anns TargetKindAnn ≠ "")
    ∧ updateNeeded noopOracle c2Env st0 c2RS c1DevPod =
        ((false, none),
         bump st0 (Action.patchRS "ns" "web-devspace" c2RS
           { c2RS with template := "tpl2",
                       anns := some (setAnn (annsOrEmpty c2RS.anns)
                         DevPodConfigHashAnn "h") })) := by
  refine ⟨by decide, ?_⟩
  have h := (updateNeeded_patch_in_place_decision noopOracle c2Env st0 c2RS c1DevPod
    wTarget { name := "web-devspace", nspace := "ns", uid := "", anns := none,
              template := "tpl2", replicas := some 1 } "h"
    rfl (by decide) (by decide) rfl rfl rfl).2 (by decide)
  rw [h]
  decide

/-- C9: a replacement with missing or empty target annotations is deleted
(one delete request; not-found on the delete is success) and recreate is
reported; likewise when the annotated target resolves as not-found; any other
resolution error is propagated with no request issued. -/
theorem updateNeeded_stale_or_unmanaged
    (o : KubeOracle) (env : Env) (s : St) (rs : ReplicaSet) (devPod : DevPod) :
    ((rs.anns.isNone || lookAnn rs.anns TargetKindAnn == ""
        || lookAnn rs.anns TargetNameAnn == "") = true →
      (updateNeeded o env s rs devPod).1.1 = true
      ∧ (updateNeeded o env s rs devPod).2.trace
          = s.trace ++ [Action.deleteRS rs.nspace rs.name]
      ∧ (o.deleteRS s.time rs.nspace rs.name = some GoErr.notFound →
          (updateNeeded o env s rs devPod).1.2 = none)
      ∧ (o.deleteRS s.time rs.nspace rs.name = none →
          (updateNeeded o env s rs devPod).1.2 = none))
    ∧ ((rs.anns.isNone || lookAnn rs.anns TargetKindAnn == ""
        || lookAnn rs.anns TargetNameAnn == "") = false →
       env.findTargetByKindName (lookAnn rs.anns TargetKindAnn) rs.nspace
         (lookAnn rs.anns TargetNameAnn) = Except.error GoErr.notFound →
      (updateNeeded o env s rs devPod).1.1 = true
      ∧ (updateNeeded o env s rs devPod).2.trace
          = s.trace ++ [Action.deleteRS rs.nspace rs.name]
      ∧ (o.deleteRS s.time rs.nspace rs.name = some GoErr.notFound →
          (updateNeeded o env s rs devPod).1.2 = none)
      ∧ (o.deleteRS s.time rs.nspace rs.name = none →
          (updateNeeded o env s rs devPod).1.2 = none))
    ∧ (∀ err : GoErr,
       (rs.anns.isNone || lookAnn rs.anns TargetKindAnn == ""
          || lookAnn rs.anns TargetNameAnn == "") = false →
       env.findTargetByKindName (lookAnn rs.anns TargetKindAnn) rs.nspace
         (lookAnn rs.anns TargetNameAnn) = Except.error err →
       isNotFound err = false →
       updateNeeded o env s rs devPod = ((false, some err), s)) := by
  refine ⟨fun hc => ?_, fun hc hfind => ?_, fun err hc hfind hnf =>
    updateNeeded_resolution_error_eq o env s rs devPod err hc hfind hnf⟩
  · rw [updateNeeded_missing_ann_eq o env s rs devPod hc, deleteReplicaSet_eq]
    refine ⟨rfl, by simp [bump], fun hd => by simp [hd, isNotFound], fun hd => by simp [hd]⟩
  · rw [updateNeeded_target_gone_eq o env s rs devPod hc hfind, deleteReplicaSet_eq]
    refine ⟨rfl, by simp [bump], fun hd => by simp [hd, isNotFound], fun hd => by simp [hd]⟩

/-- C9 witness: the annotation-less replacement `c9RS` is deleted (delete
answered with success) and recreate is reported with no error. -/
theorem updateNeeded_stale_or_unmanaged_witness :
    (c9RS.anns.isNone || lookAnn c9RS.anns TargetKindAnn == ""
      || lookAnn c9RS.anns TargetNameAnn == "") = true
    ∧ (updateNeeded noopOracle dummyEnv st0 c9RS c1DevPod).1.1 = true
    ∧ (updateNeeded noopOracle dummyEnv st0 c9RS c1DevPod).1.2 = none
    ∧ (updateNeeded noopOracle dummyEnv st0 c9RS c1DevPod).2.trace
        = [Action.deleteRS "ns" "stale"] := by
  have h := (updateNeeded_stale_or_unmanaged noopOracle dummyEnv st0 c9RS c1DevPod).1
    (by decide)
  exact ⟨by decide, h.1, h.2.2.2 rfl, by simpa using h.2.1⟩

/-- C10: in the no-change case, a failing re-assertion of the target
scale-down is logged as a warning and swallowed — `updateNeeded` still
returns (no recreate, no error), and the enclosing `ReplacePod` returns
success. -/
theorem updateNeeded_swallows_scaledown_error
    (o : KubeOracle) (env : Env) (s : St) (entry : DevPodCache) (rs : ReplicaSet)
    (devPod : DevPod) (target : Target) (newRS : ReplicaSet) (h : String) (e : GoErr)
    (r : Int) (n : Nat)
    (hanns : rs.anns.isNone = false)
    (hkind : lookAnn rs.anns TargetKindAnn ≠ "")
    (hname : lookAnn rs.anns TargetNameAnn ≠ "")
    (hfind : env.findTargetByKindName (lookAnn rs.anns TargetKindAnn) rs.nspace
               (lookAnn rs.anns TargetNameAnn) = Except.ok target)
    (hbuild : env.buildReplicaSet rs.name target devPod = Except.ok newRS)
    (hhash : env.hashConfig devPod = Except.ok h)
    (heqt : newRS.template = rs.template)
    (heqh : h = lookAnn rs.anns DevPodConfigHashAnn)
    (htk : target.kind = TKind.deployment)
    (hrep : target.replicas = some r) (hr : r ≠ 0)
    (hfail : ∀ t : Nat, o.patchTarget t target.kind target.nspace target.name target
               { target with
                 anns := some (setAnn (annsOrEmpty target.anns) ReplicasAnn (toString r)),
                 replicas := some 0 } = some e)
    (hcache : cacheGet s devPod.name = (entry, true))
    (hrsf : entry.replicaSet ≠ "")
    (hget : ∀ t : Nat, o.getRS t entry.nspace entry.name = Except.ok rs) :
    (updateNeeded o env s rs devPod).1 = (false, none)
    ∧ (updateNeeded o env s rs devPod).2.trace =
        s.trace ++ [Action.patchTarget target.kind target.nspace target.name target
                      { target with
                        anns := some (setAnn (annsOrEmpty target.anns) ReplicasAnn
                          (toString r)),
                        replicas := some 0 },
                    Action.logWarn e]
    ∧ (ReplacePod o env (n + 1) s devPod).1 = none := by
  have hc := annCondFalse rs hanns hkind hname
  have hsd : ∀ s' : St, scaleDownTarget o s' target =
      (some e, bump s' (Action.patchTarget target.kind target.nspace target.name target
        { target with
          anns := some (setAnn (annsOrEmpty target.anns) ReplicasAnn (toString r)),
          replicas := some 0 })) := by
    intro s'
    rw [scaleDownTarget_eq_pos o s' target r (Or.inr (Or.inl htk)) hrep hr, hfail s'.time]
  have hun : ∀ s' : St, updateNeeded o env s' rs devPod =
      ((false, none),
       logA (bump s' (Action.patchTarget target.kind target.nspace target.name target
         { target with
           anns := some (setAnn (annsOrEmpty target.anns) ReplicasAnn (toString r)),
           replicas := some 0 })) (Action.logWarn e)) := by
    intro s'
    rw [updateNeeded_equal_eq o env s' rs devPod target newRS h hc hfind hbuild hhash
      heqt heqh, hsd s']
  refine ⟨by rw [hun s], by rw [hun s]; simp [logA, bump], ?_⟩
  have hb : (entry.replicaSet != "") = true := by simp [hrsf]
  simp only [ReplacePod, hcache, if_true, hb, apiGetRS]
  rw [hget s.time]
  simp only
  rw [hun (bump s (Action.getRS entry.nspace entry.name))]
  simp

/-- C10 witness: with the scale patch answering an error, the decision on
`c2RS` still reports no recreate with no error, and `ReplacePod` succeeds. -/
theorem updateNeeded_swallows_scaledown_error_witness :
    (wTarget.replicas = some 3)
    ∧ (updateNeeded c10Oracle c10Env c1St c2RS c1DevPod).1 = (false, none)
    ∧ (ReplacePod c10Oracle c10Env 1 c1St c1DevPod).1 = none := by
  have h := updateNeeded_swallows_scaledown_error c10Oracle c10Env c1St c1Cache c2RS
    c1DevPod wTarget
    { name := "web-devspace", nspace := "ns", uid := "", anns := none,
      template := "tpl", replicas := some 1 }
    "h" (GoErr.other "boom") 3 0
    rfl (by decide) (by decide) rfl rfl rfl rfl rfl rfl rfl (by decide)
    (fun t => rfl) rfl (by decide) (fun t => rfl)
  exact ⟨rfl, h.1, h.2.2⟩

/-- C4: the full-replacement path of `ReplacePod` is `replacePodRest`,
entered on first-time reconciliation and on every fallthrough (replacement
reference cached but the replica set gone, or the update decision demanding
recreation).  For every entry state and every cache entry, once the target is
resolved the path saves the cache entry carrying the target kind, the target
name and the derived `<targetName>-devspace` replacement name as its very
first effect, before any scale-down patch, creation or other request is
attempted; and a failing save aborts the path with that error after the save
attempt alone.  The last three conjuncts are the entry equations: each way of
reaching the full path reduces `ReplacePod` to `replacePodRest`, so composing
them with the first two conjuncts, a failing save makes `ReplacePod` return
the error with no cluster mutation issued on the full path. -/
theorem replacePod_cache_saved_before_mutation
    (o : KubeOracle) (env : Env) (n : Nat) (devPod : DevPod) (target : Target)
    (hfind : env.findTargetBySelector devPod = Except.ok (some target)) :
    (∀ (dpc : DevPodCache) (s : St), ∃ rest,
      (replacePodRest o env (fun s2 d2 => ReplacePod o env n s2 d2) dpc devPod s).2.trace =
        s.trace ++ Action.cacheSave ((dpc.name,
          { dpc with targetKind := target.kind.kindString,
                     targetName := target.name,
                     replicaSet := target.name ++ "-devspace" })
          :: s.cache.filter (fun p => p.1 != dpc.name)) :: rest)
    ∧ (∀ (dpc : DevPodCache) (s : St) (e : GoErr), o.saveCache s.time = some e →
      replacePodRest o env (fun s2 d2 => ReplacePod o env n s2 d2) dpc devPod s =
        (some e,
         { s with
           time := s.time + 1,
           trace := s.trace ++ [Action.cacheSave ((dpc.name,
             { dpc with targetKind := target.kind.kindString,
                        targetName := target.name,
                        replicaSet := target.name ++ "-devspace" })
             :: s.cache.filter (fun p => p.1 != dpc.name))],
           cache := (dpc.name,
             { dpc with targetKind := target.kind.kindString,
                        targetName := target.name,
                        replicaSet := target.name ++ "-devspace" })
             :: s.cache.filter (fun p => p.1 != dpc.name) }))
    ∧ (∀ s : St, (cacheGet s devPod.name).1.replicaSet = "" →
      ReplacePod o env (n + 1) s devPod =
        replacePodRest o env (fun s2 d2 => ReplacePod o env n s2 d2)
          (if (cacheGet s devPod.name).2 then (cacheGet s devPod.name).1
           else { (cacheGet s devPod.name).1 with
                   name := devPod.name,
                   nspace := if devPod.nspace == "" then env.defaultNamespace
                             else devPod.nspace })
          devPod s)
    ∧ (∀ (s : St) (entry : DevPodCache),
      cacheGet s devPod.name = (entry, true) →
      entry.replicaSet ≠ "" →
      o.getRS s.time entry.nspace entry.name = Except.error GoErr.notFound →
      ReplacePod o env (n + 1) s devPod =
        replacePodRest o env (fun s2 d2 => ReplacePod o env n s2 d2) entry devPod
          (bump s (Action.getRS entry.nspace entry.name)))
    ∧ (∀ (s s1 : St) (entry : DevPodCache) (rs : ReplicaSet),
      cacheGet s devPod.name = (entry, true) →
      entry.replicaSet ≠ "" →
      o.getRS s.time entry.nspace entry.name = Except.ok rs →
      updateNeeded o env (bump s (Action.getRS entry.nspace entry.name)) rs devPod
        = ((true, none), s1) →
      ReplacePod o env (n + 1) s devPod =
        replacePodRest o env (fun s2 d2 => ReplacePod o env n s2 d2) entry devPod s1) := by
  refine ⟨?_, ?_, ?_, ?_, ?_⟩
  · intro dpc s
    simp only [replacePodRest, hfind]
    rcases hsv : cacheSaveFn o (cacheSet s dpc.name
      { dpc with targetKind := target.kind.kindString,
                 targetName := target.name,
                 replicaSet := target.name ++ "-devspace" }) with ⟨err, s3⟩
    simp only [hsv]
    have hsv2 := hsv
    simp only [cacheSaveFn, Prod.mk.injEq] at hsv2
    obtain ⟨hsv3, hsv4⟩ := hsv2
    have hs3 : s3.trace = s.trace ++ [Action.cacheSave ((dpc.name,
        { dpc with targetKind := target.kind.kindString,
                   targetName := target.name,
                   replicaSet := target.name ++ "-devspace" })
        :: s.cache.filter (fun p => p.1 != dpc.name))] := by
      rw [← hsv4]
      rfl
    cases err with
    | some e =>
      exact ⟨[], by simpa using hs3⟩
    | none =>
      rcases hrp : replace o env (fun s2 d2 => ReplacePod o env n s2 d2) s3
          (target.name ++ "-devspace") target devPod with ⟨err2, s4⟩
      simp only [hrp]
      have h5 : ∃ t, s4.trace = s3.trace ++ t := by
        have h6 := replace_ext o env (fun s2 d2 => ReplacePod o env n s2 d2)
          (fun s5 d2 => ReplacePod_ext o env n s5 d2) s3
          (target.name ++ "-devspace") target devPod
        rw [hrp] at h6
        exact h6
      obtain ⟨t, ht⟩ := h5
      cases err2 with
      | some e =>
        exact ⟨t, by simp only [ht, hs3, List.append_assoc]; rfl⟩
      | none =>
        exact ⟨t, by simp only [ht, hs3, List.append_assoc]; rfl⟩
  · intro dpc s e hsave
    simp only [replacePodRest, hfind]
    rcases hsv : cacheSaveFn o (cacheSet s dpc.name
      { dpc with targetKind := target.kind.kindString,
                 targetName := target.name,
                 replicaSet := target.name ++ "-devspace" }) with ⟨err, s3⟩
    simp only [hsv]
    have hsv2 := hsv
    simp only [cacheSaveFn, Prod.mk.injEq] at hsv2
    obtain ⟨hsv3, hsv4⟩ := hsv2
    have herr : err = some e := by
      rw [← hsv3]
      exact hsave
    subst herr
    rw [← hsv4]
    rfl
  · intro s hempty
    simp only [ReplacePod]
    rcases hcg : cacheGet s devPod.name with ⟨found, ok⟩
    rw [hcg] at hempty
    simp only at hempty
    dsimp only
    cases ok with
    | true => rw [if_neg (by simp [hempty])]
    | false => rw [if_neg (by simp [hempty])]
  · intro s entry hfound hrs hget
    simp only [ReplacePod, hfound, if_true]
    rw [if_pos (by simpa using hrs)]
    simp only [apiGetRS]
    rw [hget]
    dsimp only
    rw [if_neg (by decide)]
  · intro s s1 entry rs hfound hrs hget hup
    simp only [ReplacePod, hfound, if_true]
    rw [if_pos (by simpa using hrs)]
    simp only [apiGetRS]
    rw [hget]
    dsimp only
    rw [hup]
    dsimp only
    rw [if_neg (by decide)]

/-- C4 witness: with an always-failing cache save, both a first-time run
(empty cache) and a fallthrough run (cached replacement reference present but
the replica set gone) stop right after the save attempt, returning its error,
with the save of the full derived entry as the only mutation-bearing step. -/
theorem replacePod_cache_saved_before_mutation_witness :
    (cacheGet st0 c1DevPod.name).1.replicaSet = ""
    ∧ (ReplacePod c4Oracle c3Env 1 st0 c1DevPod).1 = some (GoErr.other "savefail")
    ∧ (ReplacePod c4Oracle c3Env 1 st0 c1DevPod).2.trace =
        [Action.cacheSave [("app",
          { name := "app", nspace := "ns", targetKind := "Deployment",
            targetName := "web", replicaSet := "web-devspace" })]]
    ∧ c1Cache.replicaSet ≠ ""
    ∧ (ReplacePod c4bOracle c3Env 1 c1St c1DevPod).1 = some (GoErr.other "savefail")
    ∧ (ReplacePod c4bOracle c3Env 1 c1St c1DevPod).2.trace =
        [Action.getRS "ns" "app", Action.cacheSave [("app", c1Cache)]] := by
  have hA := replacePod_cache_saved_before_mutation c4Oracle c3Env 0 c1DevPod c3Target rfl
  have hB := replacePod_cache_saved_before_mutation c4bOracle c3Env 0 c1DevPod c3Target rfl
  have hA1 := hA.2.2.1 st0 rfl
  have hB1 := hB.2.2.2.1 c1St c1Cache rfl (by decide) rfl
  refine ⟨rfl, ?_, ?_, by decide, ?_, ?_⟩
  · rw [hA1, hA.2.1 _ st0 (GoErr.other "savefail") rfl]
  · rw [hA1, hA.2.1 _ st0 (GoErr.other "savefail") rfl]
    decide
  · rw [hB1, hB.2.1 c1Cache (bump c1St (Action.getRS c1Cache.nspace c1Cache.name))
      (GoErr.other "savefail") rfl]
  · rw [hB1, hB.2.1 c1Cache (bump c1St (Action.getRS c1Cache.nspace c1Cache.name))
      (GoErr.other "savefail") rfl]
    decide


/-- A poll whose first check reports done stops immediately with success. -/
theorem waitPollAux_first (c : St → Bool × St) (k : Nat) (s : St)
    (h : (c s).1 = true) :
    waitPollAux c (k + 1) s = (none, (c s).2) := by
  simp only [waitPollAux]
  rcases hc : c s with ⟨done, s1⟩
  rw [hc] at h
  simp only at h
  simp [h]

/-- A poll whose condition never holds checks exactly `k` times and then
reports the wait timeout. -/
theorem waitPollAux_never (c : St → Bool × St) (a : Action)
    (hc : ∀ s : St, c s = (false, bump s a)) :
    ∀ (k : Nat) (s : St), waitPollAux c k s =
      (some GoErr.waitTimeout,
       { s with time := s.time + k, trace := s.trace ++ List.replicate k a }) := by
  intro k
  induction k with
  | zero => intro s; simp [waitPollAux]
  | succ n ih =>
    intro s
    simp only [waitPollAux, hc s]
    rw [if_neg (by decide)]
    rw [ih (bump s a)]
    simp [bump, St.mk.injEq, List.replicate_succ, List.append_assoc]
    omega

/-- C8: when claim creation conflicts with already-exists and no explicit
claim name was given, `replace` deletes the existing claim, polls for its
disappearance at a 1-second interval with a 2-minute timeout, then retries
creation exactly once: with the claim gone at the first check, the request
sequence is create, delete, one poll read, and the single retried create,
whose failure is final; with the claim never terminating, the poll runs its
full `2 * 60 / 1` checks and the timeout is returned as a fatal error with no
retry issued. -/
theorem replace_pvc_conflict_delete_poll_retry_once
    (o : KubeOracle) (env : Env) (retry : St → DevPod → Option GoErr × St)
    (s : St) (rsName : String) (target : Target) (devPod : DevPod)
    (rsObj rsCreated : ReplicaSet)
    (hbuild : env.buildReplicaSet rsName target devPod = Except.ok rsObj)
    (htk : target.kind = TKind.deployment)
    (hscale : target.replicas = some 0)
    (hcreate : ∀ t : Nat, o.createRS t rsObj = Except.ok rsCreated)
    (hpersist : (devPod.containers.any
      fun devContainer => devContainer.persistPaths.length > 0) = true)
    (hpo : devPod.persistenceOptions = none)
    (hpvc : ∀ (t : Nat) (p : PVC), o.createPVC t p = some GoErr.alreadyExists) :
    ((∀ t : Nat, o.getPVC t rsCreated.nspace rsCreated.name = some GoErr.notFound) →
      (replace o env retry s rsName target devPod).1 =
        some (GoErr.wrap "create persistent volume claim" GoErr.alreadyExists)
      ∧ (replace o env retry s rsName target devPod).2.trace =
          s.trace ++ [Action.createRS rsObj, Action.createPVC (defaultPVC rsCreated),
            Action.deletePVC rsCreated.nspace rsCreated.name,
            Action.getPVC rsCreated.nspace rsCreated.name,
            Action.createPVC (defaultPVC rsCreated)])
    ∧ ((∀ t : Nat, o.getPVC t rsCreated.nspace rsCreated.name = none) →
      (replace o env retry s rsName target devPod).1 =
        some (GoErr.wrap "waiting for pvc to terminate" GoErr.waitTimeout)
      ∧ (replace o env retry s rsName target devPod).2.trace =
          s.trace ++ [Action.createRS rsObj, Action.createPVC (defaultPVC rsCreated),
            Action.deletePVC rsCreated.nspace rsCreated.name]
            ++ List.replicate ((timeMinute * 2) / timeSecond)
                (Action.getPVC rsCreated.nspace rsCreated.name)) := by
  have hif : isAlreadyExists GoErr.alreadyExists = true := rfl
  have h120 : (timeMinute * 2) / timeSecond = 119 + 1 := rfl
  constructor
  · intro hgetA
    have hcond : ((fun s4 =>
        ((match (apiGetPVC o s4 rsCreated.nspace rsCreated.name).1 with
          | some gerr => isNotFound gerr
          | none => false), (apiGetPVC o s4 rsCreated.nspace rsCreated.name).2))
        (bump (bump (bump s (Action.createRS rsObj))
        (Action.createPVC (defaultPVC rsCreated)))
        (Action.deletePVC rsCreated.nspace rsCreated.name))).1 = true := by
      simp only [apiGetPVC, hgetA]
      rfl
    have hpoll : waitPollAux (fun s4 =>
        ((match (apiGetPVC o s4 rsCreated.nspace rsCreated.name).1 with
          | some gerr => isNotFound gerr
          | none => false), (apiGetPVC o s4 rsCreated.nspace rsCreated.name).2))
        ((timeMinute * 2) / timeSecond)
        (bump (bump (bump s (Action.createRS rsObj))
        (Action.createPVC (defaultPVC rsCreated)))
        (Action.deletePVC rsCreated.nspace rsCreated.name)) =
        (none, bump (bump (bump (bump s (Action.createRS rsObj))
        (Action.createPVC (defaultPVC rsCreated)))
        (Action.deletePVC rsCreated.nspace rsCreated.name))
          (Action.getPVC rsCreated.nspace rsCreated.name)) := by
      rw [h120]
      rw [waitPollAux_first (fun s4 =>
        ((match (apiGetPVC o s4 rsCreated.nspace rsCreated.name).1 with
          | some gerr => isNotFound gerr
          | none => false), (apiGetPVC o s4 rsCreated.nspace rsCreated.name).2)) 119
        (bump (bump (bump s (Action.createRS rsObj))
        (Action.createPVC (defaultPVC rsCreated)))
        (Action.deletePVC rsCreated.nspace rsCreated.name)) hcond]
      simp only [apiGetPVC]
    simp only [replace, hbuild]
    rw [scaleDownTarget_eq_zero o s target (Or.inr (Or.inl htk)) hscale]
    simp only [apiCreateRS, hcreate s.time]
    rw [if_pos hpersist]
    rw [createPVC_no_options_eq o env (bump s (Action.createRS rsObj)) rsCreated devPod hpo]
    simp only [hpvc]
    rw [if_pos hif]
    simp only [apiDeletePVC, waitPoll, hpoll]
    rw [createPVC_no_options_eq o env _ rsCreated devPod hpo]
    simp only [hpvc]
    exact ⟨trivial, by simp [bump, List.append_assoc]⟩
  · intro hgetB
    have hcond : ∀ s4 : St, (fun s4 =>
        ((match (apiGetPVC o s4 rsCreated.nspace rsCreated.name).1 with
          | some gerr => isNotFound gerr
          | none => false), (apiGetPVC o s4 rsCreated.nspace rsCreated.name).2)) s4
        = (false, bump s4 (Action.getPVC rsCreated.nspace rsCreated.name)) := by
      intro s4
      simp only [apiGetPVC, hgetB]
    have hpoll := waitPollAux_never (fun s4 =>
        ((match (apiGetPVC o s4 rsCreated.nspace rsCreated.name).1 with
          | some gerr => isNotFound gerr
          | none => false), (apiGetPVC o s4 rsCreated.nspace rsCreated.name).2))
      (Action.getPVC rsCreated.nspace rsCreated.name) hcond
      ((timeMinute * 2) / timeSecond)
      (bump (bump (bump s (Action.createRS rsObj))
        (Action.createPVC (defaultPVC rsCreated)))
        (Action.deletePVC rsCreated.nspace rsCreated.name))
    simp only [replace, hbuild]
    rw [scaleDownTarget_eq_zero o s target (Or.inr (Or.inl htk)) hscale]
    simp only [apiCreateRS, hcreate s.time]
    rw [if_pos hpersist]
    rw [createPVC_no_options_eq o env (bump s (Action.createRS rsObj)) rsCreated devPod hpo]
    simp only [hpvc]
    rw [if_pos hif]
    simp only [apiDeletePVC, waitPoll, hpoll]
    exact ⟨trivial, by simp [bump, List.append_assoc]⟩

/-- C8 witness: with the conflicting claim never terminating, the concrete
run returns the wrapped wait timeout after exactly one creation attempt, one
delete and the full 120 poll reads. -/
theorem replace_pvc_conflict_delete_poll_retry_once_witness :
    c7DevPod.persistenceOptions = none
    ∧ (replace c8Oracle dummyEnv (fun s _ => (none, s)) st0 "web-devspace" c3Target
        c7DevPod).1 = some (GoErr.wrap "waiting for pvc to terminate" GoErr.waitTimeout)
    ∧ ((replace c8Oracle dummyEnv (fun s _ => (none, s)) st0 "web-devspace" c3Target
        c7DevPod).2.trace.filter Action.isGetPVC).length = 120
    ∧ ((replace c8Oracle dummyEnv (fun s _ => (none, s)) st0 "web-devspace" c3Target
        c7DevPod).2.trace.filter Action.isCreatePVC).length = 1 := by
  have h := (replace_pvc_conflict_delete_poll_retry_once c8Oracle dummyEnv
    (fun s _ => (none, s)) st0 "web-devspace" c3Target c7DevPod c8RS c8RS
    rfl rfl rfl (fun t => rfl) (by decide) rfl (fun t p => rfl)).2 (fun t => rfl)
  refine ⟨rfl, h.1, ?_, ?_⟩
  · rw [h.2]
    decide
  · rw [h.2]
    decide

end PodReplace
